import Mathlib

/-!
Verification of the `Reference` module of a realtime-database client
(`src/lib/modules/database/reference.js`).

The JavaScript class is shallowly embedded: each method becomes a pure
Lean function; heap mutation becomes explicit state passing (a method that
in JS mutates a freshly constructed object is embedded as a function
returning a fresh record); promise chains become values of explicit
outcome types recording which callbacks were invoked with which arguments
and how the pending result settles.  Collaborators that live outside the
embedded file (the query/modifier store, the `isObject`/`isFunction`
utilities, the push-id generator, the snapshot wrapper and the path-holder
base class) are modelled from the specification where noted.
-/

set_option autoImplicit false

namespace RNDB

/-- A JavaScript value, restricted to the shapes the module manipulates:
`null`, `undefined`, booleans, numbers, strings, plain mappings (opaque,
identified by a token, since the module never inspects their fields) and
functions (opaque, identified by a token, since the module only tests
invocability and passes them along). -/
inductive JSVal where
  | null
  | undef
  | bool (b : Bool)
  | num (n : Int)
  | str (s : String)
  | obj (id : Nat)
  | func (id : Nat)
deriving DecidableEq, Repr

/-- JavaScript `typeof`, on the embedded values.  Note the language quirk:
`typeof null` is the string "object". -/
def jsTypeof : JSVal → String
  | .null => "object"
  | .undef => "undefined"
  | .bool _ => "boolean"
  | .num _ => "number"
  | .str _ => "string"
  | .obj _ => "object"
  | .func _ => "function"

/-- Modelled from the spec: `isObject` lives in `utils`, which is not part
of the embedded source.  Per the spec it recognises exactly plain mappings,
and `isObject(null)` is false. -/
def isObject : JSVal → Bool
  | .obj _ => true
  | _ => false

/-- Modelled from the spec: `isFunction` lives in `utils`, which is not
part of the embedded source.  It recognises exactly invocable values. -/
def isFunction : JSVal → Bool
  | .func _ => true
  | _ => false

/-- JavaScript truthiness of the embedded values (used by the source in
guards such as `failureCallback && !isFunction(failureCallback)` and
`if (error)`). -/
def truthy : JSVal → Bool
  | .null => false
  | .undef => false
  | .bool b => b
  | .num n => n != 0
  | .str s => s != ""
  | .obj _ => true
  | .func _ => true

/-- Modelled from the spec: `tryJSONStringify`/`tryJSONParse` live in
`utils`, which is not part of the embedded source.  The spec describes the
composition as a normalization that preserves JSON-representable
structure; `JSVal` carries only such values, so the round trip is the
identity here. -/
def jsonRoundTrip (v : JSVal) : JSVal := v

/-- Embeds `Reference._serializeObject`: non-mapping inputs pass through
unchanged, mappings take a stringify/parse round trip. -/
def serializeObject (v : JSVal) : JSVal :=
  if isObject v then jsonRoundTrip v else v

/-- The tagged envelope `{type, value}` produced by
`Reference._serializeAnyType`. -/
structure Serialized where
  type : String
  value : JSVal
deriving DecidableEq, Repr

/-- Embeds `Reference._serializeAnyType`: mappings are wrapped with tag
"object" and a serialized payload; any other value is wrapped with its
`typeof` name as the tag. -/
def serializeAnyType (v : JSVal) : Serialized :=
  if isObject v then
    { type := "object", value := serializeObject v }
  else
    { type := jsTypeof v, value := v }

/-- Modelled from the spec: the query modifier store (`query.js`) is not
part of the embedded source.  Per the spec a modifier is a tagged variant:
an order-by directive (kind name, optional child key), a limit directive
(kind name, count) or a filter directive (kind name, value, optional key). -/
inductive Modifier where
  | orderBy (name : String) (key : Option String)
  | limitTo (name : String) (count : Int)
  | filterBy (name : String) (value : JSVal) (key : Option String)
deriving DecidableEq, Repr

/-- Whether a modifier is an order-by directive. -/
def Modifier.isOrderBy : Modifier → Bool
  | .orderBy _ _ => true
  | _ => false

/-- Whether a modifier is a limit directive. -/
def Modifier.isLimit : Modifier → Bool
  | .limitTo _ _ => true
  | _ => false

/-- The synchronous validation failures of the modifier store (spec §4.1). -/
inductive QueryError where
  | invalidModifier
  | unsupportedValue
deriving DecidableEq, Repr

/-- Modelled from the spec: `setOrderBy` of the modifier store.  Fails with
`InvalidModifierError` when the kind is order-by-child and the child key is
absent or empty; otherwise replaces any existing order-by modifier (last
call wins) by appending the new one. -/
def setOrderBy (ms : List Modifier) (name : String) (key : Option String) :
    Except QueryError (List Modifier) :=
  if name = "orderByChild" ∧ key.getD "" = "" then
    .error .invalidModifier
  else
    .ok (ms.filter (fun m => !m.isOrderBy) ++ [.orderBy name key])

/-- Modelled from the spec: `setLimit` of the modifier store.  Fails with
`InvalidModifierError` when the count is negative; otherwise replaces any
existing limit modifier (last call wins) by appending the new one. -/
def setLimit (ms : List Modifier) (name : String) (count : Int) :
    Except QueryError (List Modifier) :=
  if count < 0 then
    .error .invalidModifier
  else
    .ok (ms.filter (fun m => !m.isLimit) ++ [.limitTo name count])

/-- Whether a value is admissible as a filter argument (spec §4.1: one of
null, boolean, number, string, mapping). -/
def allowedFilterValue : JSVal → Bool
  | .null => true
  | .bool _ => true
  | .num _ => true
  | .str _ => true
  | .obj _ => true
  | _ => false

/-- Modelled from the spec: `setFilter` of the modifier store.  Fails with
`UnsupportedValueError` on an inadmissible value; otherwise accumulates by
appending a new filter modifier. -/
def setFilter (ms : List Modifier) (name : String) (value : JSVal)
    (key : Option String) : Except QueryError (List Modifier) :=
  if allowedFilterValue value then
    .ok (ms ++ [.filterBy name value key])
  else
    .error .unsupportedValue

/-- Canonical string form of a value inside an encoded key (spec §4.2:
numbers as decimal, null as a literal sentinel, mappings by a canonical
form). -/
def canonString : JSVal → String
  | .null => "null"
  | .undef => "undefined"
  | .bool b => toString b
  | .num n => toString n
  | .str s => s
  | .obj id => "object:" ++ toString id
  | .func id => "function:" ++ toString id

/-- Modelled from the spec: the tag a single modifier contributes to the
encoded key, derived from its kind and arguments. -/
def modifierTag : Modifier → String
  | .orderBy name key => name ++ ":" ++ key.getD ""
  | .limitTo name count => name ++ ":" ++ toString count
  | .filterBy name value key => name ++ ":" ++ canonString value ++ ":" ++ key.getD ""

/-- Modelled from the spec: the query-key encoder (`getModifiersString`).
Deterministic concatenation of the per-modifier tags in order, separated by
a fixed delimiter; the empty modifier set encodes to the empty string. -/
def encodeModifiers (ms : List Modifier) : String :=
  String.intercalate "|" (ms.map modifierTag)

/-- Raw error object produced by the transport boundary. -/
structure RawError where
  code : Nat
deriving DecidableEq, Repr

/-- Domain error object produced by the database collaborator's mapper. -/
structure FirebaseError where
  code : Nat
deriving DecidableEq, Repr

/-- The narrow interface of the `database` collaborator that `Reference`
consumes: a server-time offset (seed for push ids) and the raw-to-domain
error mapper `_toFirebaseError`. -/
structure Database where
  serverTimeOffset : Int
  toFirebaseErrorFn : RawError → FirebaseError

/-- A reference: database handle, path (a JavaScript string, embedded as a
character list) and its attached modifier list.  The `ReferenceBase` path
holder is not part of the embedded source; modelled from the spec, it
stores the constructor's path string verbatim.  A constructor call without
`existingModifiers` yields an empty modifier list. -/
structure Reference where
  database : Database
  path : List Char
  modifiers : List Modifier

/-- Embeds `Reference.orderBy`: constructs a new reference on the same
path from a copy of this reference's modifiers, then applies `setOrderBy`
to that copy (a validation failure propagates as a synchronous throw). -/
def Reference.orderBy (r : Reference) (name : String) (key : Option String) :
    Except QueryError Reference :=
  (setOrderBy r.modifiers name key).map fun ms =>
    { database := r.database, path := r.path, modifiers := ms }

/-- Embeds `Reference.orderByKey`. -/
def Reference.orderByKey (r : Reference) : Except QueryError Reference :=
  r.orderBy "orderByKey" none

/-- Embeds `Reference.orderByPriority`. -/
def Reference.orderByPriority (r : Reference) : Except QueryError Reference :=
  r.orderBy "orderByPriority" none

/-- Embeds `Reference.orderByValue`. -/
def Reference.orderByValue (r : Reference) : Except QueryError Reference :=
  r.orderBy "orderByValue" none

/-- Embeds `Reference.orderByChild`. -/
def Reference.orderByChild (r : Reference) (key : String) :
    Except QueryError Reference :=
  r.orderBy "orderByChild" (some key)

/-- Embeds `Reference.limit`: constructs a new reference on the same path
from a copy of this reference's modifiers, then applies `setLimit` to that
copy. -/
def Reference.limit (r : Reference) (name : String) (count : Int) :
    Except QueryError Reference :=
  (setLimit r.modifiers name count).map fun ms =>
    { database := r.database, path := r.path, modifiers := ms }

/-- Embeds `Reference.limitToFirst`. -/
def Reference.limitToFirst (r : Reference) (count : Int) :
    Except QueryError Reference :=
  r.limit "limitToFirst" count

/-- Embeds `Reference.limitToLast`. -/
def Reference.limitToLast (r : Reference) (count : Int) :
    Except QueryError Reference :=
  r.limit "limitToLast" count

/-- Embeds `Reference.filter`: constructs a new reference on the same path
from a copy of this reference's modifiers, then applies `setFilter` to
that copy. -/
def Reference.filter (r : Reference) (name : String) (value : JSVal)
    (key : Option String) : Except QueryError Reference :=
  (setFilter r.modifiers name value key).map fun ms =>
    { database := r.database, path := r.path, modifiers := ms }

/-- Embeds `Reference.equalTo`. -/
def Reference.equalTo (r : Reference) (value : JSVal) (key : Option String) :
    Except QueryError Reference :=
  r.filter "equalTo" value key

/-- Embeds `Reference.startAt`. -/
def Reference.startAt (r : Reference) (value : JSVal) (key : Option String) :
    Except QueryError Reference :=
  r.filter "startAt" value key

/-- Embeds `Reference.endAt`. -/
def Reference.endAt (r : Reference) (value : JSVal) (key : Option String) :
    Except QueryError Reference :=
  r.filter "endAt" value key

/-- Embeds `Reference.child`: a new reference at `path + "/" + segment`
built by the constructor without existing modifiers, hence with a fresh
empty modifier list. -/
def Reference.child (r : Reference) (segment : List Char) : Reference :=
  { database := r.database, path := r.path ++ "/".data ++ segment, modifiers := [] }

/-- Embeds `Reference.toString`: the path string. -/
def Reference.toPathString (r : Reference) : List Char :=
  r.path

/-- JavaScript `String.prototype.lastIndexOf` for a single character: the
largest index holding the character, or -1 when absent. -/
def jsLastIndexOf (s : List Char) (c : Char) : Int :=
  match s with
  | [] => -1
  | x :: xs =>
    let r := jsLastIndexOf xs c
    if r ≥ 0 then r + 1
    else if x = c then 0 else -1

/-- JavaScript `String.prototype.substring(0, e)`: a negative end index is
clamped to 0. -/
def jsSubstringFromZero (s : List Char) (e : Int) : List Char :=
  s.take e.toNat

/-- Embeds the `parent` getter: null at the root path "/", otherwise a new
reference (fresh empty modifier list) at
`path.substring(0, path.lastIndexOf('/'))`. -/
def Reference.parent (r : Reference) : Option Reference :=
  if r.path = "/".data then none
  else some { database := r.database,
              path := jsSubstringFromZero r.path (jsLastIndexOf r.path '/'),
              modifiers := [] }

/-- Embeds the `root` getter: a new reference at "/". -/
def Reference.root (r : Reference) : Reference :=
  { database := r.database, path := "/".data, modifiers := [] }

/-- Modelled from the spec: the snapshot wrapper (`snapshot.js`) is not
part of the embedded source.  Per the spec it is an immutable wrapper
around a point-in-time read result, bound to the reference that produced
it. -/
structure Snapshot where
  ref : Reference
  data : JSVal

/-- How the pending result of `once` settles: fulfilled with the wrapped
snapshot, fulfilled with a callback's return value, or rejected with a
domain error. -/
inductive OncePromise where
  | fulfilledSnap (s : Snapshot)
  | fulfilledCallbackReturn
  | rejected (e : FirebaseError)

/-- Observable behaviour of one `once` call: the snapshots passed to the
success callback, the domain errors passed to the failure callback, and
the settlement of the pending result. -/
structure OnceTrace where
  successCalls : List Snapshot
  failureCalls : List FirebaseError
  outcome : OncePromise

/-- Embeds `Reference.once`, parameterized by the settled result of the
transport call `once(path, encodedKey, modifiers, eventType)`.  On success
the raw payload is wrapped into a snapshot bound to this reference, the
success callback is invoked when invocable, and the pending result
fulfils with the snapshot.  On failure the raw error is mapped through the
database collaborator; an invocable failure callback receives the mapped
error and its return value fulfils the pending result, otherwise the
pending result rejects with the mapped error. -/
def Reference.once (r : Reference) (successCallback failureCallback : JSVal)
    (transport : Except RawError JSVal) : OnceTrace :=
  match transport with
  | .ok raw =>
    let snap : Snapshot := { ref := r, data := raw }
    if isFunction successCallback then
      { successCalls := [snap], failureCalls := [], outcome := .fulfilledSnap snap }
    else
      { successCalls := [], failureCalls := [], outcome := .fulfilledSnap snap }
  | .error e =>
    let fe := r.database.toFirebaseErrorFn e
    if isFunction failureCallback then
      { successCalls := [], failureCalls := [fe], outcome := .fulfilledCallbackReturn }
    else
      { successCalls := [], failureCalls := [], outcome := .rejected fe }

/-- The argument tuple `Reference.on` delegates to the listener registry
collaborator (`database.on`). -/
structure RegistryCall where
  path : List Char
  modifiersString : String
  modifiers : List Modifier
  eventType : String
  successCallback : JSVal
  failureCallback : JSVal

/-- Result of an `on` call: a synchronously thrown argument error, or a
registration delegated to the listener registry together with the returned
value. -/
inductive OnResult where
  | thrown (message : String)
  | registered (call : RegistryCall) (returned : JSVal)

/-- Embeds `Reference.on`: throws when the success callback is not
invocable; throws when the failure callback is truthy and not invocable;
otherwise delegates path, encoded key, raw modifier list, event type and
both callbacks to the listener registry and returns the success
callback. -/
def Reference.on (r : Reference) (eventType : String)
    (successCallback failureCallback : JSVal) : OnResult :=
  if !isFunction successCallback then
    .thrown "The specified callback must be a function"
  else if truthy failureCallback ∧ !isFunction failureCallback then
    .thrown "The specified error callback must be a function"
  else
    .registered
      { path := r.path
        modifiersString := encodeModifiers r.modifiers
        modifiers := r.modifiers
        eventType := eventType
        successCallback := successCallback
        failureCallback := failureCallback }
      successCallback

/-- How the pending result of a transport-backed `push` settles: fulfilled
with the new child reference, fulfilled with the completion callback's
return value, or fulfilled with the raw error object.  Rejection belongs
to the settlement space of any pending result, but `push` never produces
it: its `catch` handler returns the error instead of rethrowing. -/
inductive PushPromise where
  | fulfilledRef (r : Reference)
  | fulfilledCallbackReturn
  | fulfilledErr (e : RawError)
  | rejected (e : RawError)

/-- Result value of a `push` call: a synchronously returned reference, or
a pending result. -/
inductive PushResultVal where
  | syncRef (r : Reference)
  | promise (p : PushPromise)

/-- Observable behaviour of one `push` call: the transport `push`
invocations (path and serialized value), the `(error, ref)` argument pairs
passed to the completion callback, and the returned value. -/
structure PushTrace where
  transportCalls : List (List Char × Serialized)
  completeCalls : List (Option RawError × Option Reference)
  result : PushResultVal

/-- Embeds `Reference.push`, parameterized by the push-id generator (a
collaborator from `utils`, per the spec a pure function of the server-time
offset) and by the settled result of the transport call (`{ref}` payload,
a child path).  A null or undefined value short-circuits: no transport
call, no callback, synchronous return of a new reference at
`path + "/" + generatePushID(serverTimeOffset)`.  Otherwise the value is
serialized and forwarded; on success the returned child path is wrapped in
a new reference and handed to the completion callback when invocable, on
failure an invocable completion callback receives `(error, null)`;
without a callback the `catch` handler returns the error, fulfilling the
pending result with it. -/
def Reference.push (generatePushID : Int → List Char) (r : Reference)
    (value onComplete : JSVal) (transport : Except RawError (List Char)) :
    PushTrace :=
  if value = .null ∨ value = .undef then
    { transportCalls := []
      completeCalls := []
      result := .syncRef
        { database := r.database
          path := r.path ++ "/".data ++ generatePushID r.database.serverTimeOffset
          modifiers := [] } }
  else
    let sv := serializeAnyType value
    match transport with
    | .ok refPath =>
      let newRef : Reference :=
        { database := r.database, path := refPath, modifiers := [] }
      if isFunction onComplete then
        { transportCalls := [(r.path, sv)]
          completeCalls := [(none, some newRef)]
          result := .promise .fulfilledCallbackReturn }
      else
        { transportCalls := [(r.path, sv)]
          completeCalls := []
          result := .promise (.fulfilledRef newRef) }
    | .error e =>
      if isFunction onComplete then
        { transportCalls := [(r.path, sv)]
          completeCalls := [(some e, none)]
          result := .promise .fulfilledCallbackReturn }
      else
        { transportCalls := [(r.path, sv)]
          completeCalls := []
          result := .promise (.fulfilledErr e) }

/-- Embeds `Reference.set`: the `(path, serialized value)` argument pair
forwarded to the transport boundary. -/
def Reference.set (r : Reference) (value : JSVal) : List Char × Serialized :=
  (r.path, serializeAnyType value)

/-- The argument tuple `Reference.transaction` delegates to the
transaction-queue collaborator (`database.transaction.add`). -/
structure QueueCall where
  reference : Reference
  updateFn : JSVal
  applyLocally : Bool

/-- Result of starting a transaction: an immediately rejected pending
result (queue never invoked, witnessed by the absence of a queue call in
this constructor), or a delegation to the transaction queue. -/
inductive TransactionStart where
  | rejectedNoFn (message : String)
  | delegated (call : QueueCall)

/-- Embeds the synchronous part of `Reference.transaction`: a
non-invocable update function yields `Promise.reject` (no throw, no queue
call); otherwise the call is delegated to the transaction queue with the
update function and the apply-locally flag. -/
def Reference.transaction (r : Reference) (updateFn : JSVal)
    (applyLocally : Bool) : TransactionStart :=
  if !isFunction updateFn then
    .rejectedNoFn "Missing transactionUpdate function argument."
  else
    .delegated { reference := r, updateFn := updateFn, applyLocally := applyLocally }

/-- An `(error, committed, snapshot)` argument triple passed to the
transaction completion callback. -/
structure TxCallbackArgs where
  error : Option RawError
  committed : Bool
  snapshot : Option Snapshot

/-- How the transaction's pending result settles: rejected with the error,
or resolved with `{committed, snapshot}`. -/
inductive TxSettle where
  | rejected (e : RawError)
  | resolved (committed : Bool) (snapshot : Snapshot)

/-- Observable behaviour of one invocation of the transaction completion
adapter: the arguments passed to `onComplete` and the settlement of the
pending result. -/
structure TxTrace where
  onCompleteCalls : List TxCallbackArgs
  settlement : TxSettle

/-- Embeds `onCompleteWrapper`, the completion adapter `transaction` hands
to the queue.  On a (truthy) error: `onComplete(error, committed, null)`
when a callback is present, then reject with the error.  Otherwise: wrap
the data into a snapshot bound to this reference, invoke
`onComplete(null, committed, snapshot)` when a callback is present, then
resolve with `{committed, snapshot}`.  The settlement field is a single
value, so exactly one of resolve/reject occurs. -/
def Reference.onCompleteWrapper (r : Reference) (hasOnComplete : Bool)
    (error : Option RawError) (committed : Bool) (snapshotData : JSVal) :
    TxTrace :=
  match error with
  | some e =>
    { onCompleteCalls :=
        if hasOnComplete then [⟨some e, committed, none⟩] else []
      settlement := .rejected e }
  | none =>
    let snap : Snapshot := { ref := r, data := snapshotData }
    { onCompleteCalls :=
        if hasOnComplete then [⟨none, committed, some snap⟩] else []
      settlement := .resolved committed snap }

/-! Sample fixtures used by witnesses and counterexamples. -/

/-- A concrete database collaborator: the error mapper shifts the code by
100, so mapped errors are visibly distinct from raw ones. -/
def sampleDatabase : Database :=
  { serverTimeOffset := 0, toFirebaseErrorFn := fun e => { code := e.code + 100 } }

/-- A concrete reference at path "/users" with no modifiers. -/
def sampleRef : Reference :=
  { database := sampleDatabase, path := "/users".data, modifiers := [] }

/-- A concrete reference at the root path "/". -/
def rootRef : Reference :=
  { database := sampleDatabase, path := "/".data, modifiers := [] }

/-- What a fluent builder must produce: a reference with the same database
and path as the receiver, whose modifiers are the (successful) result of
the given setter application. -/
def builderFrame (r r2 : Reference) (applied : Except QueryError (List Modifier)) : Prop :=
  r2.database = r.database ∧ r2.path = r.path ∧ applied = .ok r2.modifiers

/-- Any successful `orderBy` call satisfies `builderFrame`. -/
theorem orderBy_frame (r r2 : Reference) (name : String) (key : Option String)
    (h : r.orderBy name key = .ok r2) :
    builderFrame r r2 (setOrderBy r.modifiers name key) := by
  unfold Reference.orderBy at h
  cases hs : setOrderBy r.modifiers name key with
  | error e => rw [hs] at h; exact absurd h (by simp [Except.map])
  | ok ms =>
    rw [hs] at h
    simp only [Except.map, Except.ok.injEq] at h
    subst h
    exact ⟨rfl, rfl, rfl⟩

/-- Any successful `limit` call satisfies `builderFrame`. -/
theorem limit_frame (r r2 : Reference) (name : String) (count : Int)
    (h : r.limit name count = .ok r2) :
    builderFrame r r2 (setLimit r.modifiers name count) := by
  unfold Reference.limit at h
  cases hs : setLimit r.modifiers name count with
  | error e => rw [hs] at h; exact absurd h (by simp [Except.map])
  | ok ms =>
    rw [hs] at h
    simp only [Except.map, Except.ok.injEq] at h
    subst h
    exact ⟨rfl, rfl, rfl⟩

/-- Any successful `filter` call satisfies `builderFrame`. -/
theorem filter_frame (r r2 : Reference) (name : String) (value : JSVal)
    (key : Option String) (h : r.filter name value key = .ok r2) :
    builderFrame r r2 (setFilter r.modifiers name value key) := by
  unfold Reference.filter at h
  cases hs : setFilter r.modifiers name value key with
  | error e => rw [hs] at h; exact absurd h (by simp [Except.map])
  | ok ms =>
    rw [hs] at h
    simp only [Except.map, Except.ok.injEq] at h
    subst h
    exact ⟨rfl, rfl, rfl⟩

/-- C1: every fluent builder (orderByKey, orderByPriority, orderByValue,
orderByChild, limitToFirst, limitToLast, equalTo, startAt, endAt) that
returns a reference returns a new one sharing the receiver's path and
database, whose modifier list is exactly one setter application to a copy
of the receiver's modifier list.  In this embedding mutation is explicit
state passing: the receiver `r` is only read, so its own path, modifier
set and encoded key are unchanged by construction. -/
theorem fluent_builders_frame (r r2 : Reference) (k : String) (n : Int)
    (v : JSVal) (ok : Option String) :
    (r.orderByKey = .ok r2 → builderFrame r r2 (setOrderBy r.modifiers "orderByKey" none)) ∧
    (r.orderByPriority = .ok r2 → builderFrame r r2 (setOrderBy r.modifiers "orderByPriority" none)) ∧
    (r.orderByValue = .ok r2 → builderFrame r r2 (setOrderBy r.modifiers "orderByValue" none)) ∧
    (r.orderByChild k = .ok r2 → builderFrame r r2 (setOrderBy r.modifiers "orderByChild" (some k))) ∧
    (r.limitToFirst n = .ok r2 → builderFrame r r2 (setLimit r.modifiers "limitToFirst" n)) ∧
    (r.limitToLast n = .ok r2 → builderFrame r r2 (setLimit r.modifiers "limitToLast" n)) ∧
    (r.equalTo v ok = .ok r2 → builderFrame r r2 (setFilter r.modifiers "equalTo" v ok)) ∧
    (r.startAt v ok = .ok r2 → builderFrame r r2 (setFilter r.modifiers "startAt" v ok)) ∧
    (r.endAt v ok = .ok r2 → builderFrame r r2 (setFilter r.modifiers "endAt" v ok)) :=
  ⟨orderBy_frame r r2 "orderByKey" none,
   orderBy_frame r r2 "orderByPriority" none,
   orderBy_frame r r2 "orderByValue" none,
   orderBy_frame r r2 "orderByChild" (some k),
   limit_frame r r2 "limitToFirst" n,
   limit_frame r r2 "limitToLast" n,
   filter_frame r r2 "equalTo" v ok,
   filter_frame r r2 "startAt" v ok,
   filter_frame r r2 "endAt" v ok⟩

/-- The reference `sampleRef.orderByKey` evaluates to. -/
def orderedSampleRef : Reference :=
  { database := sampleDatabase, path := "/users".data,
    modifiers := [Modifier.orderBy "orderByKey" none] }

/-- C1 witness: at the concrete reference "/users" with no modifiers,
`orderByKey` succeeds and the result satisfies `builderFrame`. -/
theorem fluent_builders_frame_witness :
    builderFrame sampleRef orderedSampleRef
      (setOrderBy sampleRef.modifiers "orderByKey" none) :=
  (fluent_builders_frame sampleRef orderedSampleRef "" 0 JSVal.null none).1 rfl

/-- C2 counterexample: serializing null does not produce the tagged
envelope with type "null" — JavaScript `typeof null` is "object", so the
non-mapping branch tags it "object". -/
theorem serializeNull_not_null_tagged :
    serializeAnyType JSVal.null ≠ { type := "null", value := JSVal.null } := by
  decide

/-- C2 (amended): serializing null through `_serializeAnyType` (as done by
`set(null)`) produces `{type: "object", value: null}`: `isObject(null)` is
false, so the mapping branch is not taken, but the fallback tag
`typeof null` is the string "object". -/
theorem serializeNull_object_tagged :
    isObject JSVal.null = false ∧
    serializeAnyType JSVal.null = { type := "object", value := JSVal.null } ∧
    sampleRef.set JSVal.null =
      (sampleRef.path, { type := "object", value := JSVal.null }) :=
  ⟨rfl, rfl, rfl⟩

/-- C7 counterexample: the child "a" of the root reference (path "/") has
path "//a" — the literal template concatenation — which is not "/a". -/
theorem root_child_double_slash :
    (rootRef.child "a".data).path = "//a".data ∧
    (rootRef.child "a".data).path ≠ "/a".data := by
  exact ⟨rfl, by decide⟩

/-- C7 (amended): `child(p)` returns a new reference at the literal
concatenation `path + "/" + p` with a fresh empty modifier list and the
same database; no normalization is performed, so the child "a" of the root
reference has path "//a". -/
theorem child_appends_segment (r : Reference) (p : List Char) :
    (r.child p).database = r.database ∧
    (r.child p).path = r.path ++ "/".data ++ p ∧
    (r.child p).modifiers = [] ∧
    (rootRef.child "a".data).path = "//a".data :=
  ⟨rfl, rfl, rfl, rfl⟩

/-- C9: push with no value (undefined) makes no transport call, invokes no
callback, and synchronously returns a new reference whose path is
`this.path + "/" + generatePushID(database.serverTimeOffset)`, for every
push-id generator and every transport behaviour. -/
theorem push_no_value (gen : Int → List Char) (r : Reference) (cb : JSVal)
    (t : Except RawError (List Char)) :
    Reference.push gen r JSVal.undef cb t =
      { transportCalls := []
        completeCalls := []
        result := .syncRef
          { database := r.database
            path := r.path ++ "/".data ++ gen r.database.serverTimeOffset
            modifiers := [] } } := by
  rfl

/-- C10: push with an explicit null value behaves exactly like push with
no value: the null/undefined check sends both down the synchronous
local-push-id branch, so no transport call is made and the completion
callback is never invoked. -/
theorem push_null_is_local (gen : Int → List Char) (r : Reference) (cb : JSVal)
    (t : Except RawError (List Char)) :
    Reference.push gen r JSVal.null cb t = Reference.push gen r JSVal.undef cb t ∧
    (Reference.push gen r JSVal.null cb t).transportCalls = [] ∧
    (Reference.push gen r JSVal.null cb t).completeCalls = [] := by
  exact ⟨rfl, rfl, rfl⟩

/-- C3: when the transport `once` call rejects with a raw error, a call
without a failure callback yields a pending result rejected with the
mapped domain error (obtained from the database collaborator's
`_toFirebaseError`) and no failure-callback invocation; with an invocable
failure callback, the callback receives the mapped error and the pending
result does not reject — the two failure channels never both fire. -/
theorem once_failure_channels (r : Reference) (sCb fCb : JSVal) (e : RawError) :
    ((r.once sCb JSVal.undef (.error e)).outcome =
        .rejected (r.database.toFirebaseErrorFn e) ∧
      (r.once sCb JSVal.undef (.error e)).failureCalls = []) ∧
    (isFunction fCb = true →
      (r.once sCb fCb (.error e)).failureCalls = [r.database.toFirebaseErrorFn e] ∧
      ∀ x, (r.once sCb fCb (.error e)).outcome ≠ .rejected x) := by
  refine ⟨⟨rfl, rfl⟩, fun hf => ?_⟩
  unfold Reference.once
  rw [hf]
  exact ⟨rfl, fun x h => by injection h⟩

/-- C3 witness: at the concrete reference (error mapper shifts the code by
100) with failure callback present, the callback receives the mapped
error. -/
theorem once_failure_channels_witness :
    (sampleRef.once JSVal.undef (JSVal.func 0) (.error { code := 3 })).failureCalls =
      [{ code := 103 }] :=
  ((once_failure_channels sampleRef JSVal.undef (JSVal.func 0) { code := 3 }).2 rfl).1

/-- C4: behaviour of `push` at the failing input — a present value, a
rejecting transport and no completion callback.  The `catch` handler
returns the error instead of rethrowing, so the pending result fulfils
carrying the raw error object and never rejects; with an invocable
completion callback the callback does receive `(error, null)`. -/
theorem push_error_fulfils_with_error :
    (Reference.push (fun _ => "id0".data) sampleRef (JSVal.num 42) JSVal.undef
        (.error { code := 7 })).result =
      .promise (.fulfilledErr { code := 7 }) ∧
    (∀ x, (Reference.push (fun _ => "id0".data) sampleRef (JSVal.num 42) JSVal.undef
        (.error { code := 7 })).result ≠ .promise (.rejected x)) ∧
    (Reference.push (fun _ => "id0".data) sampleRef (JSVal.num 42) (JSVal.func 1)
        (.error { code := 7 })).completeCalls = [(some { code := 7 }, none)] := by
  refine ⟨rfl, fun x h => ?_, rfl⟩
  rw [show (Reference.push (fun _ => "id0".data) sampleRef (JSVal.num 42) JSVal.undef
        (.error { code := 7 })).result = .promise (.fulfilledErr { code := 7 }) from rfl] at h
  injection h with h2
  injection h2

/-- C5 counterexample: with a provided failure callback that is not
invocable but falsy (the boolean false), `on` does not throw — the guard
tests truthiness before invocability — and instead registers the listener
with that failure callback. -/
theorem on_falsy_failure_callback_registers :
    sampleRef.on "value" (JSVal.func 0) (JSVal.bool false) =
      .registered
        { path := sampleRef.path
          modifiersString := ""
          modifiers := []
          eventType := "value"
          successCallback := JSVal.func 0
          failureCallback := JSVal.bool false }
        (JSVal.func 0) := by
  rfl

/-- C5 (amended): `on` throws a synchronous error when the success
callback is not invocable, and when the provided failure callback is
truthy and not invocable; a falsy non-invocable failure callback (false,
0, empty string, null, undefined) is treated as absent and skips
validation.  Otherwise it registers path, encoded key, raw modifier list,
event type and both callbacks with the listener registry collaborator and
returns the success callback itself. -/
theorem on_validation_and_registration (r : Reference) (et : String)
    (s f : JSVal) :
    (isFunction s = false →
      r.on et s f = .thrown "The specified callback must be a function") ∧
    (isFunction s = true → truthy f = true → isFunction f = false →
      r.on et s f = .thrown "The specified error callback must be a function") ∧
    (isFunction s = true → (truthy f = false ∨ isFunction f = true) →
      r.on et s f =
        .registered
          { path := r.path
            modifiersString := encodeModifiers r.modifiers
            modifiers := r.modifiers
            eventType := et
            successCallback := s
            failureCallback := f }
          s) := by
  refine ⟨fun hs => ?_, fun hs ht hf => ?_, fun hs hor => ?_⟩
  · unfold Reference.on
    rw [hs]
    rfl
  · unfold Reference.on
    rw [hs, ht, hf]
    rfl
  · unfold Reference.on
    rw [hs]
    rcases hor with ht | hf
    · rw [ht]
      rfl
    · rw [hf]
      simp

/-- C5 witness: at the concrete reference with two invocable callbacks,
`on` registers and returns the success callback. -/
theorem on_validation_and_registration_witness :
    sampleRef.on "value" (JSVal.func 0) (JSVal.func 1) =
      .registered
        { path := sampleRef.path
          modifiersString := ""
          modifiers := []
          eventType := "value"
          successCallback := JSVal.func 0
          failureCallback := JSVal.func 1 }
        (JSVal.func 0) :=
  (on_validation_and_registration sampleRef "value" (JSVal.func 0)
    (JSVal.func 1)).2.2 rfl (Or.inr rfl)

/-- C6: `transaction` with a non-invocable update function returns an
immediately rejected pending result (no throw) without a queue call;
with an invocable one it delegates to the transaction queue.  The
completion adapter, on a (present) error, invokes
`onComplete(error, committed, null)` when present and rejects with the
error; on success it wraps the data into a snapshot bound to this
reference, invokes `onComplete(null, committed, snapshot)` when present,
and resolves with `{committed, snapshot}`; its settlement is a single
value, so exactly one of resolve/reject occurs and never both. -/
theorem transaction_validation_and_adapter (r : Reference) (f : JSVal)
    (al : Bool) (hasCb : Bool) (e : RawError) (c : Bool) (sd : JSVal) :
    (isFunction f = false →
      r.transaction f al =
        .rejectedNoFn "Missing transactionUpdate function argument.") ∧
    (isFunction f = true →
      r.transaction f al =
        .delegated { reference := r, updateFn := f, applyLocally := al }) ∧
    (r.onCompleteWrapper hasCb (some e) c sd =
      { onCompleteCalls :=
          if hasCb then [⟨some e, c, none⟩] else []
        settlement := .rejected e }) ∧
    (r.onCompleteWrapper hasCb none c sd =
      { onCompleteCalls :=
          if hasCb then [⟨none, c, some { ref := r, data := sd }⟩] else []
        settlement := .resolved c { ref := r, data := sd } }) ∧
    (∀ err : Option RawError, ¬ ∃ e2 c2 s2,
      (r.onCompleteWrapper hasCb err c sd).settlement = .rejected e2 ∧
      (r.onCompleteWrapper hasCb err c sd).settlement = .resolved c2 s2) := by
  refine ⟨fun hf => ?_, fun hf => ?_, rfl, rfl, fun err ⟨e2, c2, s2, h1, h2⟩ => ?_⟩
  · unfold Reference.transaction
    rw [hf]
    rfl
  · unfold Reference.transaction
    rw [hf]
    rfl
  · rw [h1] at h2
    injection h2

/-- C6 witness: at the concrete reference with a non-invocable update
function (a number), `transaction` is the rejected pending result. -/
theorem transaction_validation_witness :
    sampleRef.transaction (JSVal.num 0) true =
      .rejectedNoFn "Missing transactionUpdate function argument." :=
  (transaction_validation_and_adapter sampleRef (JSVal.num 0) true false
    { code := 0 } false JSVal.null).1 rfl

/-- In `p ++ "/x"` the last slash is the appended one, at index
`p.length`: the suffix after it is the single character x, which is not a
slash. -/
theorem jsLastIndexOf_append_slash_x (p : List Char) :
    jsLastIndexOf (p ++ "/x".data) '/' = (p.length : Int) := by
  induction p with
  | nil => decide
  | cons a as ih =>
    show jsLastIndexOf (a :: (as ++ "/x".data)) '/' = _
    unfold jsLastIndexOf
    rw [ih]
    rw [if_pos (by exact_mod_cast Int.ofNat_nonneg as.length)]
    simp only [List.length_cons]
    push_cast
    ring

/-- Taking the first `p.length` characters of `p ++ s` gives back `p`. -/
theorem take_length_append (p s : List Char) : (p ++ s).take p.length = p := by
  induction p with
  | nil => rfl
  | cons a as ih =>
    show a :: (as ++ s).take as.length = a :: as
    rw [ih]

/-- A child path `p ++ "/x"` is never the root path "/": it is at least
two characters long. -/
theorem append_slash_x_ne_root (p : List Char) : p ++ "/x".data ≠ "/".data := by
  intro h
  have hl := congrArg List.length h
  simp at hl

/-- C8: the parent getter of a root reference (path "/") is null; for
every reference whose path p is not root, the parent of its child "x" has
path p again (`substring(0, lastIndexOf('/'))` strips the appended
segment); concretely, the parent of "/a/b" has path "/a". -/
theorem parent_navigation (db : Database) (p : List Char) (ms : List Modifier)
    (_h : p ≠ "/".data) :
    (Reference.parent { database := db, path := "/".data, modifiers := ms } = none) ∧
    ((Reference.child { database := db, path := p, modifiers := ms } "x".data).parent).map
        Reference.path = some p ∧
    ((Reference.parent { database := db, path := "/a/b".data, modifiers := ms }).map
        Reference.path = some "/a".data) := by
  refine ⟨rfl, ?_, rfl⟩
  have hpath : (Reference.child { database := db, path := p, modifiers := ms } "x".data).path
      = p ++ "/x".data := by
    show p ++ "/".data ++ "x".data = p ++ "/x".data
    rw [List.append_assoc]
    rfl
  unfold Reference.parent
  rw [hpath, if_neg (append_slash_x_ne_root p)]
  show some ((p ++ "/x".data).take (jsLastIndexOf (p ++ "/x".data) '/').toNat) = some p
  rw [jsLastIndexOf_append_slash_x, Int.toNat_ofNat, take_length_append]

/-- C8 witness: at the concrete non-root path "/users", the parent of the
child "x" has path "/users" again, and the root reference has no
parent. -/
theorem parent_navigation_witness :
    ((Reference.child { database := sampleDatabase, path := "/users".data, modifiers := [] }
        "x".data).parent).map Reference.path = some "/users".data :=
  (parent_navigation sampleDatabase "/users".data [] (by decide)).2.1

end RNDB
